import Mathlib

/-!
Shallow embedding of `web_scrapping_RSPO.py`, centred on the
`download_audit_reports` coroutine (the per-record locate–verify–retrieve
loop) and the final manifest write.  The browser/UI environment is modelled
as input data: for each target record, a `RecordPage` records how the page
behaves while that record is processed (whether navigation and the grid
succeed, what rows the search returns, and the outcome of each attachment
download).  Every control-flow branch of the Python loop is mirrored.
-/

/-- Calendar date, as carried by `License Start Date` after `pd.to_datetime`. -/
structure Date where
  year : Nat
  month : Nat
  day : Nat
deriving DecidableEq, Repr

/-- Zero-pad a numeral to two digits, as `strftime` does for `%m` and `%d`. -/
def pad2 (n : Nat) : String :=
  if n < 10 then "0" ++ toString n else toString n

/-- Zero-pad a numeral to four digits, as `strftime` does for `%Y`. -/
def pad4 (n : Nat) : String :=
  if n < 10 then "000" ++ toString n
  else if n < 100 then "00" ++ toString n
  else if n < 1000 then "0" ++ toString n
  else toString n

/-- `license_start.strftime('%Y-%m-%d')` (lines 153 and 159 of the source). -/
def Date.fmt (d : Date) : String :=
  pad4 d.year ++ "-" ++ pad2 d.month ++ "-" ++ pad2 d.day

/-- Python's `str.strip()`: drop whitespace from both ends of the string. -/
def strip (s : String) : String :=
  ⟨((s.data.dropWhile Char.isWhitespace).reverse.dropWhile Char.isWhitespace).reverse⟩

/-- One row of `target_records` (line 86): a raw trading-account id (stripped
only at line 99, inside the loop) and a license start date. -/
structure TargetRecord where
  id : String
  licenseStart : Date
deriving DecidableEq, Repr

/-- Outcome of one attachment candidate (the inner `try` of lines 149-164):
the download completed and `save_as` succeeded (carrying the browser's
suggested filename, which the code never uses), or `expect_download` timed
out, or `save_as` raised. -/
inductive AttachmentOutcome where
  | saved (suggested : String)
  | downloadTimeout
  | saveFailed
deriving DecidableEq, Repr

/-- One element of `download_log` (lines 157-162). -/
structure ManifestEntry where
  prismaId : String
  licenseStartDate : String
  fileType : String
  filename : String
deriving DecidableEq, Repr

/-- The filename of line 153: `f"{prisma_id}_{license_start:%Y-%m-%d}_audit_{j+1}.pdf"`
(the argument here is the already-shifted 1-based index). -/
def auditFilename (pid d : String) (j : Nat) : String :=
  pid ++ "_" ++ d ++ "_audit_" ++ toString j ++ ".pdf"

/-- What the attachment loop (lines 148-164) produces: filenames of files
whose `save_as` completed, the `(id, date, index)` key of each of those, and
the manifest entries appended. -/
structure DownloadAcc where
  saved : List String
  keys : List (String × String × Nat)
  entries : List ManifestEntry
deriving DecidableEq, Repr

/-- The `for j, el in enumerate(elements)` loop of lines 148-164.  `j` is the
0-based counter; a candidate that saves contributes `auditFilename pid d (j+1)`
and a manifest entry, a failing candidate contributes nothing and the loop
continues. -/
def downloadLoop (pid d : String) : Nat → List AttachmentOutcome → DownloadAcc
  | _, [] => ⟨[], [], []⟩
  | j, o :: rest =>
    let s := downloadLoop pid d (j + 1) rest
    match o with
    | .saved _ =>
      ⟨auditFilename pid d (j + 1) :: s.saved,
       (pid, d, j + 1) :: s.keys,
       ⟨pid, d, "Audit Report", auditFilename pid d (j + 1)⟩ :: s.entries⟩
    | _ => s

/-- Result of the verification step (lines 128-137) over the first row's
cells. -/
inductive VerifyOutcome where
  | badFormat
  | mismatch (visible : String)
  | ok
deriving DecidableEq, Repr

/-- Lines 128-137: fewer than 6 cells is an unexpected row format; otherwise
the trimmed text of cell index 5 is compared to the searched id by exact
string equality. -/
def verifyFirstRow (pid : String) (cells : List String) : VerifyOutcome :=
  if cells.length < 6 then .badFormat
  else
    match cells.get? 5 with
    | none => .badFormat
    | some c => if strip c = pid then .ok else .mismatch (strip c)

/-- The per-record outcome printed by the loop body. -/
inductive RecOutcome where
  | searchWaitTimeout
  | searchBarMissing
  | noResults
  | badRowFormat
  | idMismatch (visible : String)
  | noAttachments
  | processed
deriving DecidableEq, Repr

/-- How the page behaves while one record is processed: whether `page.goto`
(line 103) and the grid wait (line 104) succeed, whether the search input
appears (line 108) and is found (line 109), the result rows after the search
settles (line 123, each row its list of cell texts), and the outcome of each
`text=Audit Report` control after the row is opened (line 143). -/
structure RecordPage where
  navOk : Bool
  gridOk : Bool
  searchWaitOk : Bool
  searchBoxFound : Bool
  rows : List (List String)
  attachments : List AttachmentOutcome
deriving DecidableEq, Repr

/-- Observable effects of one record's `try` block (lines 106-168):
the printed outcome, whether `rows[0].click()` ran (line 140), the files
saved, their keys, and the manifest entries appended. -/
structure RecordTrace where
  outcome : RecOutcome
  rowOpened : Bool
  saved : List String
  keys : List (String × String × Nat)
  entries : List ManifestEntry
deriving DecidableEq, Repr

/-- The body of the outer `try` (lines 106-168) for one record, reached only
after navigation and the grid wait succeeded.  Every exception raised inside
is caught (the outer `except` of line 166 or the inner one of line 163), so
this function is total. -/
def processRecordTry (r : TargetRecord) (pg : RecordPage) : RecordTrace :=
  let pid := strip r.id
  let d := r.licenseStart.fmt
  if pg.searchWaitOk = false then ⟨.searchWaitTimeout, false, [], [], []⟩
  else if pg.searchBoxFound = false then ⟨.searchBarMissing, false, [], [], []⟩
  else
    match pg.rows.head? with
    | none => ⟨.noResults, false, [], [], []⟩
    | some cells =>
      match verifyFirstRow pid cells with
      | .badFormat => ⟨.badRowFormat, false, [], [], []⟩
      | .mismatch v => ⟨.idMismatch v, false, [], [], []⟩
      | .ok =>
        if pg.attachments.isEmpty then ⟨.noAttachments, true, [], [], []⟩
        else
          let dl := downloadLoop pid d 0 pg.attachments
          ⟨.processed, true, dl.saved, dl.keys, dl.entries⟩

/-- An exception that escapes the record loop: `page.goto` (line 103) or the
grid wait (line 104) timing out — both sit OUTSIDE the `try` — or the
browser failing to launch (line 94), before any record. -/
inductive FatalError where
  | sessionOpen
  | navTimeout
  | gridNotReady
deriving DecidableEq, Repr

/-- State of the run after the record loop: the accumulated `download_log`,
the saved filenames, their keys, the per-record outcomes in order, and the
exception (if any) that escaped the loop. -/
structure RunState where
  log : List ManifestEntry
  saved : List String
  keys : List (String × String × Nat)
  outcomes : List RecOutcome
  fatal : Option FatalError
deriving DecidableEq, Repr

/-- The record loop (lines 98-168).  A navigation or grid timeout raises
outside the `try` and aborts the loop: this and all later records produce
nothing; everything else is handled inside the record and the loop
continues. -/
def runAux : List (TargetRecord × RecordPage) → RunState
  | [] => ⟨[], [], [], [], none⟩
  | (r, pg) :: rest =>
    if pg.navOk = false then ⟨[], [], [], [], some .navTimeout⟩
    else if pg.gridOk = false then ⟨[], [], [], [], some .gridNotReady⟩
    else
      let t := processRecordTry r pg
      let s := runAux rest
      ⟨t.entries ++ s.log, t.saved ++ s.saved, t.keys ++ s.keys,
       t.outcome :: s.outcomes, s.fatal⟩

/-- The columns `pd.DataFrame(download_log)` infers (line 173): the four
dict keys when the log is non-empty, no columns at all when it is empty. -/
def manifestColumns (log : List ManifestEntry) : List String :=
  if log.isEmpty then []
  else ["Prisma ID", "License Start Date", "File Type", "Filename"]

/-- The rows `df_log.to_csv(log_path, index=False)` writes (line 175): the
inferred header row followed by one row per entry. -/
def manifestCSV (log : List ManifestEntry) : List (List String) :=
  manifestColumns log ::
    log.map (fun e => [e.prismaId, e.licenseStartDate, e.fileType, e.filename])

/-- Result of one invocation of `download_audit_reports`: the run state plus
the manifest file, which is written (lines 172-176) only when no exception
escaped the loop. -/
structure RunResult where
  log : List ManifestEntry
  saved : List String
  keys : List (String × String × Nat)
  outcomes : List RecOutcome
  fatal : Option FatalError
  manifestFile : Option (List (List String))
deriving DecidableEq, Repr

/-- `download_audit_reports` (lines 92-176).  `sessionOk` is whether the
browser launch of line 94 succeeds; `inputs` pairs each target record with
the page behaviour observed while it is processed. -/
def download_audit_reports (sessionOk : Bool)
    (inputs : List (TargetRecord × RecordPage)) : RunResult :=
  if sessionOk = false then ⟨[], [], [], [], some .sessionOpen, none⟩
  else
    let s := runAux inputs
    ⟨s.log, s.saved, s.keys, s.outcomes, s.fatal,
     if s.fatal.isSome then none else some (manifestCSV s.log)⟩

/-- A candidate that fails to download or save contributes nothing and the
attachment loop moves on. -/
theorem downloadLoop_skip (pid d : String) (j : Nat) (o : AttachmentOutcome)
    (rest : List AttachmentOutcome) (h : ∀ s, o ≠ AttachmentOutcome.saved s) :
    downloadLoop pid d j (o :: rest) = downloadLoop pid d (j + 1) rest := by
  cases o with
  | saved s => exact absurd rfl (h s)
  | downloadTimeout => rfl
  | saveFailed => rfl

/-- In the attachment loop, the filenames of the entries appended are exactly
the filenames saved, in order. -/
theorem downloadLoop_entries_filenames (pid d : String) (outs : List AttachmentOutcome) :
    ∀ j, ((downloadLoop pid d j outs).entries.map (fun e => e.filename))
      = (downloadLoop pid d j outs).saved := by
  induction outs with
  | nil => intro j; rfl
  | cons o rest ih =>
    intro j
    cases o with
    | saved s => simp [downloadLoop, ih]
    | downloadTimeout => exact ih (j + 1)
    | saveFailed => exact ih (j + 1)

/-- Each saved filename is the `auditFilename` of its `(id, date, index)` key. -/
theorem downloadLoop_saved_keys (pid d : String) (outs : List AttachmentOutcome) :
    ∀ j, (downloadLoop pid d j outs).saved
      = (downloadLoop pid d j outs).keys.map (fun k => auditFilename k.1 k.2.1 k.2.2) := by
  induction outs with
  | nil => intro j; rfl
  | cons o rest ih =>
    intro j
    cases o with
    | saved s => simp [downloadLoop, ih]
    | downloadTimeout => exact ih (j + 1)
    | saveFailed => exact ih (j + 1)

/-- Every key produced by the attachment loop carries the loop's id and date,
and an index strictly above the starting counter. -/
theorem downloadLoop_mem_keys (pid d : String) (outs : List AttachmentOutcome) :
    ∀ j k, k ∈ (downloadLoop pid d j outs).keys →
      k.1 = pid ∧ k.2.1 = d ∧ j < k.2.2 := by
  induction outs with
  | nil => intro j k h; simp [downloadLoop] at h
  | cons o rest ih =>
    intro j k h
    cases o with
    | saved s =>
      simp only [downloadLoop, List.mem_cons] at h
      rcases h with h | h
      · subst h; exact ⟨rfl, rfl, Nat.lt_succ_self j⟩
      · obtain ⟨h1, h2, h3⟩ := ih (j + 1) k h
        exact ⟨h1, h2, Nat.lt_of_succ_lt h3⟩
    | downloadTimeout =>
      obtain ⟨h1, h2, h3⟩ := ih (j + 1) k h
      exact ⟨h1, h2, Nat.lt_of_succ_lt h3⟩
    | saveFailed =>
      obtain ⟨h1, h2, h3⟩ := ih (j + 1) k h
      exact ⟨h1, h2, Nat.lt_of_succ_lt h3⟩

/-- The indices of the keys produced by the attachment loop are strictly
increasing. -/
theorem downloadLoop_keys_sorted (pid d : String) (outs : List AttachmentOutcome) :
    ∀ j, (downloadLoop pid d j outs).keys.Pairwise (fun a b => a.2.2 < b.2.2) := by
  induction outs with
  | nil => intro j; simp [downloadLoop]
  | cons o rest ih =>
    intro j
    cases o with
    | saved s =>
      refine List.Pairwise.cons ?_ (ih (j + 1))
      intro b hb
      exact (downloadLoop_mem_keys pid d rest (j + 1) b hb).2.2
    | downloadTimeout => exact ih (j + 1)
    | saveFailed => exact ih (j + 1)

/-- Every entry appended by the attachment loop has the loop's id and date,
file type `Audit Report`, and an `auditFilename`-shaped filename. -/
theorem downloadLoop_mem_entries (pid d : String) (outs : List AttachmentOutcome) :
    ∀ j e, e ∈ (downloadLoop pid d j outs).entries →
      ∃ i, e = ⟨pid, d, "Audit Report", auditFilename pid d i⟩ := by
  induction outs with
  | nil => intro j e h; simp [downloadLoop] at h
  | cons o rest ih =>
    intro j e h
    cases o with
    | saved s =>
      simp only [downloadLoop, List.mem_cons] at h
      rcases h with h | h
      · exact ⟨j + 1, h⟩
      · exact ih (j + 1) e h
    | downloadTimeout => exact ih (j + 1) e h
    | saveFailed => exact ih (j + 1) e h

/-- Splitting the candidate list splits the loop's output, with the counter
advanced by the length of the first part. -/
theorem downloadLoop_append (pid d : String) (xs ys : List AttachmentOutcome) :
    ∀ j, downloadLoop pid d j (xs ++ ys)
      = ⟨(downloadLoop pid d j xs).saved ++ (downloadLoop pid d (j + xs.length) ys).saved,
         (downloadLoop pid d j xs).keys ++ (downloadLoop pid d (j + xs.length) ys).keys,
         (downloadLoop pid d j xs).entries ++ (downloadLoop pid d (j + xs.length) ys).entries⟩ := by
  induction xs with
  | nil => intro j; rfl
  | cons o rest ih =>
    intro j
    have harith : j + 1 + rest.length = j + (rest.length + 1) := by omega
    cases o with
    | saved s =>
      simp only [List.cons_append, downloadLoop, List.append_eq, ih (j + 1), List.length_cons, harith]
    | downloadTimeout =>
      simp only [List.cons_append, downloadLoop, List.append_eq, ih (j + 1), List.length_cons, harith]
    | saveFailed =>
      simp only [List.cons_append, downloadLoop, List.append_eq, ih (j + 1), List.length_cons, harith]

/-- A record's `try` block either produces nothing (any failure branch, or a
record with no attachment controls) or hands over exactly the attachment
loop's output. -/
theorem processRecordTry_cases (r : TargetRecord) (pg : RecordPage) :
    ((processRecordTry r pg).saved = [] ∧ (processRecordTry r pg).keys = []
      ∧ (processRecordTry r pg).entries = []) ∨
    processRecordTry r pg
      = ⟨.processed, true,
         (downloadLoop (strip r.id) r.licenseStart.fmt 0 pg.attachments).saved,
         (downloadLoop (strip r.id) r.licenseStart.fmt 0 pg.attachments).keys,
         (downloadLoop (strip r.id) r.licenseStart.fmt 0 pg.attachments).entries⟩ := by
  obtain ⟨nav, grid, sw, sb, rows, atts⟩ := pg
  cases sw with
  | false => left; exact ⟨rfl, rfl, rfl⟩
  | true =>
    cases sb with
    | false => left; exact ⟨rfl, rfl, rfl⟩
    | true =>
      cases rows with
      | nil => left; exact ⟨rfl, rfl, rfl⟩
      | cons c rs =>
        cases hv : verifyFirstRow (strip r.id) c with
        | badFormat => left; simp [processRecordTry, hv]
        | mismatch v => left; simp [processRecordTry, hv]
        | ok =>
          cases atts with
          | nil => left; simp [processRecordTry, hv]
          | cons a as => right; simp [processRecordTry, hv]

/-- Filenames of a record's entries are exactly its saved filenames. -/
theorem processRecordTry_entries_filenames (r : TargetRecord) (pg : RecordPage) :
    ((processRecordTry r pg).entries.map (fun e => e.filename))
      = (processRecordTry r pg).saved := by
  rcases processRecordTry_cases r pg with ⟨hs, _, he⟩ | h
  · rw [he, hs]; rfl
  · rw [h]; exact downloadLoop_entries_filenames _ _ _ 0

/-- A record's saved filenames are the `auditFilename`s of its keys. -/
theorem processRecordTry_saved_keys (r : TargetRecord) (pg : RecordPage) :
    (processRecordTry r pg).saved
      = (processRecordTry r pg).keys.map (fun k => auditFilename k.1 k.2.1 k.2.2) := by
  rcases processRecordTry_cases r pg with ⟨hs, hk, _⟩ | h
  · rw [hs, hk]; rfl
  · rw [h]; exact downloadLoop_saved_keys _ _ _ 0

/-- Every key a record produces carries that record's stripped id and
formatted date, and a positive (1-based) index. -/
theorem processRecordTry_mem_keys (r : TargetRecord) (pg : RecordPage)
    (k : String × String × Nat) (h : k ∈ (processRecordTry r pg).keys) :
    k.1 = strip r.id ∧ k.2.1 = r.licenseStart.fmt ∧ 1 ≤ k.2.2 := by
  rcases processRecordTry_cases r pg with ⟨_, hk, _⟩ | hc
  · rw [hk] at h; simp at h
  · rw [hc] at h
    exact (downloadLoop_mem_keys _ _ _ 0 k h).imp id (fun hp => hp.imp id id)

/-- The key indices a record produces are strictly increasing. -/
theorem processRecordTry_keys_sorted (r : TargetRecord) (pg : RecordPage) :
    (processRecordTry r pg).keys.Pairwise (fun a b => a.2.2 < b.2.2) := by
  rcases processRecordTry_cases r pg with ⟨_, hk, _⟩ | hc
  · rw [hk]; exact List.Pairwise.nil
  · rw [hc]; exact downloadLoop_keys_sorted _ _ _ 0

/-- Every entry a record produces is an audit-report entry with an
`auditFilename`-shaped filename. -/
theorem processRecordTry_mem_entries (r : TargetRecord) (pg : RecordPage)
    (e : ManifestEntry) (h : e ∈ (processRecordTry r pg).entries) :
    ∃ pid d i, e = ⟨pid, d, "Audit Report", auditFilename pid d i⟩ := by
  rcases processRecordTry_cases r pg with ⟨_, _, he⟩ | hc
  · rw [he] at h; simp at h
  · rw [hc] at h
    obtain ⟨i, hi⟩ := downloadLoop_mem_entries _ _ _ 0 e h
    exact ⟨_, _, i, hi⟩

/-- The loop escapes with no exception exactly when navigation and the grid
wait succeed for every input record. -/
theorem runAux_fatal_none_iff (inputs : List (TargetRecord × RecordPage)) :
    (runAux inputs).fatal = none
      ↔ ∀ p ∈ inputs, p.2.navOk = true ∧ p.2.gridOk = true := by
  induction inputs with
  | nil => simp [runAux]
  | cons p rest ih =>
    obtain ⟨r, pg⟩ := p
    by_cases hn : pg.navOk = true
    · by_cases hg : pg.gridOk = true
      · simp [runAux, hn, hg, ih]
      · simp only [Bool.not_eq_true] at hg
        simp [runAux, hn, hg]
    · simp only [Bool.not_eq_true] at hn
      simp [runAux, hn]

/-- When navigation and the grid wait succeed for every record, the loop
processes each record in order and concatenates their outputs. -/
theorem runAux_all_ok (inputs : List (TargetRecord × RecordPage))
    (h : ∀ p ∈ inputs, p.2.navOk = true ∧ p.2.gridOk = true) :
    runAux inputs
      = ⟨(inputs.map (fun p => (processRecordTry p.1 p.2).entries)).flatten,
         (inputs.map (fun p => (processRecordTry p.1 p.2).saved)).flatten,
         (inputs.map (fun p => (processRecordTry p.1 p.2).keys)).flatten,
         inputs.map (fun p => (processRecordTry p.1 p.2).outcome),
         none⟩ := by
  induction inputs with
  | nil => rfl
  | cons p rest ih =>
    obtain ⟨r, pg⟩ := p
    obtain ⟨hn, hg⟩ := h (r, pg) (List.mem_cons_self _ _)
    replace hn : pg.navOk = true := hn
    replace hg : pg.gridOk = true := hg
    have hrest := ih (fun q hq => h q (List.mem_cons_of_mem _ hq))
    simp [runAux, hn, hg, hrest]

/-- Filenames of the accumulated log are exactly the saved filenames. -/
theorem runAux_log_filenames (inputs : List (TargetRecord × RecordPage)) :
    ((runAux inputs).log.map (fun e => e.filename)) = (runAux inputs).saved := by
  induction inputs with
  | nil => rfl
  | cons p rest ih =>
    obtain ⟨r, pg⟩ := p
    simp only [runAux]
    split
    · rfl
    split
    · rfl
    · simp [List.map_append, ih, processRecordTry_entries_filenames]

/-- The accumulated saved filenames are the `auditFilename`s of the
accumulated keys. -/
theorem runAux_saved_keys (inputs : List (TargetRecord × RecordPage)) :
    (runAux inputs).saved
      = (runAux inputs).keys.map (fun k => auditFilename k.1 k.2.1 k.2.2) := by
  induction inputs with
  | nil => rfl
  | cons p rest ih =>
    obtain ⟨r, pg⟩ := p
    simp only [runAux]
    split
    · rfl
    split
    · rfl
    · simp [List.map_append, ih, processRecordTry_saved_keys]

/-- Every accumulated key belongs to some input record and carries that
record's stripped id and formatted date. -/
theorem runAux_mem_keys (inputs : List (TargetRecord × RecordPage))
    (k : String × String × Nat) (h : k ∈ (runAux inputs).keys) :
    ∃ p ∈ inputs, k.1 = strip p.1.id ∧ k.2.1 = p.1.licenseStart.fmt ∧ 1 ≤ k.2.2 := by
  induction inputs with
  | nil => simp [runAux] at h
  | cons p rest ih =>
    obtain ⟨r, pg⟩ := p
    simp only [runAux] at h
    split at h
    · simp at h
    split at h
    · simp at h
    · simp only [List.mem_append] at h
      rcases h with h | h
      · exact ⟨(r, pg), List.mem_cons_self _ _, processRecordTry_mem_keys r pg k h⟩
      · obtain ⟨q, hq, hk⟩ := ih h
        exact ⟨q, List.mem_cons_of_mem _ hq, hk⟩

/-- Every accumulated entry is an audit-report entry named by
`auditFilename`. -/
theorem runAux_mem_entries (inputs : List (TargetRecord × RecordPage))
    (e : ManifestEntry) (h : e ∈ (runAux inputs).log) :
    ∃ pid d i, e = ⟨pid, d, "Audit Report", auditFilename pid d i⟩ := by
  induction inputs with
  | nil => simp [runAux] at h
  | cons p rest ih =>
    obtain ⟨r, pg⟩ := p
    simp only [runAux] at h
    split at h
    · simp at h
    split at h
    · simp at h
    · simp only [List.mem_append] at h
      rcases h with h | h
      · exact processRecordTry_mem_entries r pg e h
      · exact ih h

/-- If the (stripped id, formatted date) pairs of the input records are
pairwise distinct, then the accumulated `(id, date, index)` keys are
pairwise distinct. -/
theorem runAux_keys_nodup (inputs : List (TargetRecord × RecordPage))
    (h : (inputs.map (fun p => (strip p.1.id, p.1.licenseStart.fmt))).Pairwise
        (fun a b => a ≠ b)) :
    (runAux inputs).keys.Pairwise (fun a b => a ≠ b) := by
  induction inputs with
  | nil => simp [runAux]
  | cons p rest ih =>
    simp only [List.map_cons, List.pairwise_cons] at h
    obtain ⟨hhead, htail⟩ := h
    obtain ⟨r, pg⟩ := p
    simp only [runAux]
    split
    · simp
    split
    · simp
    · apply List.pairwise_append.mpr
      refine ⟨?_, ih htail, ?_⟩
      · exact (processRecordTry_keys_sorted r pg).imp
          (fun hlt heq => absurd (congrArg (fun k => k.2.2) heq) (Nat.ne_of_lt hlt))
      · intro a ha b hb
        obtain ⟨ha1, ha2, _⟩ := processRecordTry_mem_keys r pg a ha
        obtain ⟨q, hq, hb1, hb2, _⟩ := runAux_mem_keys rest b hb
        have hne := hhead (strip q.1.id, q.1.licenseStart.fmt)
          (List.mem_map_of_mem _ hq)
        intro heq
        apply hne
        have e1 : strip r.id = strip q.1.id := by rw [← ha1, heq, hb1]
        have e2 : r.licenseStart.fmt = q.1.licenseStart.fmt := by
          rw [← ha2, heq, hb2]
        rw [e1, e2]

/-- Exact equality of `verifyFirstRow` succeeding: at least six cells and
the trimmed sixth cell equal to the searched id. -/
theorem verifyFirstRow_ok_iff (pid : String) (cells : List String) :
    verifyFirstRow pid cells = VerifyOutcome.ok
      ↔ 6 ≤ cells.length ∧ ∃ c, cells.get? 5 = some c ∧ strip c = pid := by
  unfold verifyFirstRow
  by_cases hl : cells.length < 6
  · rw [if_pos hl]
    constructor
    · intro h; exact VerifyOutcome.noConfusion h
    · rintro ⟨h6, -⟩; omega
  · rw [if_neg hl]
    cases hg : cells.get? 5 with
    | none =>
      constructor
      · intro h; exact VerifyOutcome.noConfusion h
      · rintro ⟨-, c, hc, -⟩; exact Option.noConfusion hc
    | some c =>
      dsimp only
      by_cases hs : strip c = pid
      · rw [if_pos hs]
        exact ⟨fun _ => ⟨by omega, c, rfl, hs⟩, fun _ => rfl⟩
      · rw [if_neg hs]
        constructor
        · intro h; exact VerifyOutcome.noConfusion h
        · rintro ⟨-, c2, hc2, hs2⟩
          injection hc2 with hcc
          exact absurd (hcc ▸ hs2) hs

/-- Any record whose first-row verification does not succeed is skipped: the
row is never opened and the record produces nothing. -/
theorem processRecordTry_not_ok (r : TargetRecord) (pg : RecordPage)
    (cells : List String) (hrow : pg.rows.head? = some cells)
    (hv : verifyFirstRow (strip r.id) cells ≠ VerifyOutcome.ok) :
    (processRecordTry r pg).rowOpened = false ∧
    (processRecordTry r pg).saved = [] ∧
    (processRecordTry r pg).entries = [] := by
  obtain ⟨nav, grid, sw, sb, rows, atts⟩ := pg
  cases sw with
  | false => exact ⟨rfl, rfl, rfl⟩
  | true =>
    cases sb with
    | false => exact ⟨rfl, rfl, rfl⟩
    | true =>
      cases rows with
      | nil => exact ⟨rfl, rfl, rfl⟩
      | cons c0 rs =>
        have hc0 : c0 = cells := by simpa using hrow
        subst hc0
        cases hvv : verifyFirstRow (strip r.id) c0 with
        | badFormat => simp [processRecordTry, hvv]
        | mismatch v => simp [processRecordTry, hvv]
        | ok => exact absurd hvv hv

/-- Fixture: first target record of the worked examples. -/
def recA : TargetRecord := ⟨"PRSM-100", ⟨2025, 4, 2⟩⟩

/-- Fixture: second target record of the worked examples. -/
def recB : TargetRecord := ⟨"PRSM-200", ⟨2025, 4, 5⟩⟩

/-- Fixture: a seven-cell result row whose identifying cell (index 5) shows
the given id. -/
def rowFor (pid : String) : List String :=
  ["c0", "c1", "c2", "c3", "c4", pid, "c6"]

/-- Fixture: a page on which `recA` is found, verified, and has one
attachment that downloads and saves. -/
def pageA : RecordPage :=
  ⟨true, true, true, true, [rowFor "PRSM-100"], [.saved "a.pdf"]⟩

/-- Fixture: a page on which `recB` is found, verified, and has two
attachments that download and save. -/
def pageB : RecordPage :=
  ⟨true, true, true, true, [rowFor "PRSM-200"], [.saved "b1.pdf", .saved "b2.pdf"]⟩

/-- Fixture: a page whose navigation times out. -/
def pageBadNav : RecordPage := ⟨false, true, true, true, [], []⟩

/-- Fixture: a page whose first result row shows a different id. -/
def pageMismatch : RecordPage :=
  ⟨true, true, true, true, [rowFor "PRSM-999"], [.saved "m.pdf"]⟩

/-- Fixture: a page on which `recA` is verified but has no attachment
controls. -/
def pageNoAtt : RecordPage :=
  ⟨true, true, true, true, [rowFor "PRSM-100"], []⟩

/-- Fixture: a page whose first result row has only two cells. -/
def pageShortRow : RecordPage :=
  ⟨true, true, true, true, [["a", "b"]], [.saved "s.pdf"]⟩

/-- C1 is false as stated: a NAVIGATE timeout is NOT caught at the
per-record boundary, because `page.goto` and the grid wait sit outside the
`try`.  On this input the first record's navigation timeout terminates the
run with zero records processed and no log, although the second record on
its own processes fine. -/
theorem C1_counterexample :
    (download_audit_reports true [(recA, pageBadNav), (recB, pageB)]).fatal
      = some FatalError.navTimeout ∧
    (download_audit_reports true [(recA, pageBadNav), (recB, pageB)]).outcomes = [] ∧
    (download_audit_reports true [(recA, pageBadNav), (recB, pageB)]).log = [] ∧
    (download_audit_reports true [(recB, pageB)]).outcomes
      = [RecOutcome.processed] := by
  refine ⟨rfl, rfl, rfl, ?_⟩
  decide

/-- C1 (amended): a session-open failure is fatal before any record is
processed, and every failure arising inside the per-record `try` block —
search timeout, missing search bar, no results, unexpected row format, id
mismatch, attachment failures — is caught there: whenever navigation and
the grid wait succeed for every record, the run processes every record in
order, logs each outcome, and no exception escapes the loop.  NAVIGATE and
WAIT_GRID timeouts, however, are outside the `try` and abort the run. -/
theorem C1_locate_failures_isolated (inputs : List (TargetRecord × RecordPage)) :
    ((download_audit_reports false inputs).fatal = some FatalError.sessionOpen ∧
      (download_audit_reports false inputs).outcomes = []) ∧
    ((∀ p ∈ inputs, p.2.navOk = true ∧ p.2.gridOk = true) →
      (download_audit_reports true inputs).fatal = none ∧
      (download_audit_reports true inputs).outcomes
        = inputs.map (fun p => (processRecordTry p.1 p.2).outcome)) := by
  refine ⟨⟨rfl, rfl⟩, fun h => ?_⟩
  simp [download_audit_reports, runAux_all_ok inputs h]

/-- C1 witness: on a run where the first record's id mismatches and the
second succeeds, the loop completes and both outcomes are logged. -/
theorem C1_witness :
    (download_audit_reports true [(recA, pageMismatch), (recB, pageB)]).fatal
      = none ∧
    (download_audit_reports true [(recA, pageMismatch), (recB, pageB)]).outcomes
      = [(processRecordTry recA pageMismatch).outcome,
         (processRecordTry recB pageB).outcome] :=
  (C1_locate_failures_isolated [(recA, pageMismatch), (recB, pageB)]).2 (by decide)

/-- C2: a manifest entry exists iff the corresponding save completed — the
accumulated log's filenames are exactly the saved filenames, in order, and
a candidate that times out or fails to save contributes nothing to either:
the loop simply advances its counter. -/
theorem C2_entry_iff_saved :
    (∀ (sessionOk : Bool) (inputs : List (TargetRecord × RecordPage)),
      ((download_audit_reports sessionOk inputs).log.map (fun e => e.filename))
        = (download_audit_reports sessionOk inputs).saved) ∧
    (∀ (pid d : String) (j : Nat) (o : AttachmentOutcome)
        (rest : List AttachmentOutcome),
      (∀ s, o ≠ AttachmentOutcome.saved s) →
      downloadLoop pid d j (o :: rest) = downloadLoop pid d (j + 1) rest) := by
  constructor
  · intro sessionOk inputs
    cases sessionOk with
    | false => rfl
    | true => exact runAux_log_filenames inputs
  · exact downloadLoop_skip

/-- C2 witness: on a concrete run the log filenames coincide with the saved
files, and a timed-out candidate contributes nothing. -/
theorem C2_witness :
    ((download_audit_reports true [(recA, pageA)]).log.map (fun e => e.filename))
      = (download_audit_reports true [(recA, pageA)]).saved ∧
    downloadLoop "PRSM-100" "2025-04-02" 0
        [AttachmentOutcome.downloadTimeout, AttachmentOutcome.saved "a.pdf"]
      = downloadLoop "PRSM-100" "2025-04-02" 1 [AttachmentOutcome.saved "a.pdf"] :=
  ⟨C2_entry_iff_saved.1 true [(recA, pageA)],
   C2_entry_iff_saved.2 "PRSM-100" "2025-04-02" 0 _ _
     (fun _ h => AttachmentOutcome.noConfusion h)⟩

/-- C3: if the first result row's identifying cell (index 5) trims to a
string different from the stripped target id, the row is not opened and the
record produces zero saved files and zero manifest entries. -/
theorem C3_mismatch_skips_record (r : TargetRecord) (pg : RecordPage)
    (cells : List String) (c : String)
    (hrow : pg.rows.head? = some cells)
    (hc : cells.get? 5 = some c)
    (hne : strip c ≠ strip r.id) :
    (processRecordTry r pg).rowOpened = false ∧
    (processRecordTry r pg).saved = [] ∧
    (processRecordTry r pg).entries = [] := by
  apply processRecordTry_not_ok r pg cells hrow
  intro hok
  obtain ⟨-, c2, hc2, hs⟩ := (verifyFirstRow_ok_iff _ _).mp hok
  rw [hc] at hc2
  injection hc2 with hcc
  exact hne (hcc ▸ hs)

/-- C3 witness: searching for `PRSM-100` but finding a first row showing
`PRSM-999` opens nothing and downloads nothing. -/
theorem C3_witness :
    (processRecordTry recA pageMismatch).rowOpened = false ∧
    (processRecordTry recA pageMismatch).saved = [] ∧
    (processRecordTry recA pageMismatch).entries = [] :=
  C3_mismatch_skips_record recA pageMismatch (rowFor "PRSM-999") "PRSM-999"
    (by decide) (by decide) (by decide)

/-- C4 is false as stated: on an empty accumulated log, `pd.DataFrame([])`
infers no columns, so the written file does not contain the header row
`Prisma ID, License Start Date, File Type, Filename` — the run over an
empty record sequence writes a file whose only row is empty. -/
theorem C4_counterexample :
    (download_audit_reports true []).manifestFile = some (manifestCSV []) ∧
    manifestCSV [] = [[]] ∧
    ¬ ["Prisma ID", "License Start Date", "File Type", "Filename"]
        ∈ manifestCSV [] := by
  refine ⟨rfl, rfl, ?_⟩
  decide

/-- C4 (amended): the Manifest Writer always produces a file, and writing
an empty manifest is not an error; but the header row with the four column
names appears only when the manifest is non-empty — an empty manifest
yields a file with a single empty row instead. -/
theorem C4_header_iff_nonempty (log : List ManifestEntry) :
    manifestCSV log ≠ [] ∧
    (log = [] → manifestCSV log = [[]]) ∧
    (log ≠ [] → (manifestCSV log).head?
      = some ["Prisma ID", "License Start Date", "File Type", "Filename"]) := by
  refine ⟨by simp [manifestCSV], fun h => ?_, fun h => ?_⟩
  · rw [h]; rfl
  · simp [manifestCSV, manifestColumns, h]

/-- C4 witness: the empty manifest yields the headerless file, a singleton
manifest yields the header. -/
theorem C4_witness :
    manifestCSV [] = [[]] ∧
    (manifestCSV [⟨"PRSM-100", "2025-04-02", "Audit Report",
        "PRSM-100_2025-04-02_audit_1.pdf"⟩]).head?
      = some ["Prisma ID", "License Start Date", "File Type", "Filename"] :=
  ⟨(C4_header_iff_nonempty []).2.1 rfl,
   (C4_header_iff_nonempty _).2.2 (by decide)⟩

/-- C5 is false as stated: the first record saves one file and appends one
entry, then the second record's navigation times out; the exception escapes
the loop and the function returns without ever reaching the manifest write,
so the accumulated entry is not persisted. -/
theorem C5_counterexample :
    (download_audit_reports true [(recA, pageA), (recB, pageBadNav)]).log
      = [⟨"PRSM-100", "2025-04-02", "Audit Report",
          "PRSM-100_2025-04-02_audit_1.pdf"⟩] ∧
    (download_audit_reports true [(recA, pageA), (recB, pageBadNav)]).manifestFile
      = none := by
  constructor
  · decide
  · rfl

/-- C5 (amended): the accumulated entries are written at end of run
whenever the record loop itself completes — per-record and per-attachment
failures included, so all-records-fail still writes — but an exception
escaping the loop (a navigation or grid timeout) returns before the write
and nothing is persisted at all. -/
theorem C5_manifest_write_requires_loop_completion
    (inputs : List (TargetRecord × RecordPage)) :
    ((∀ p ∈ inputs, p.2.navOk = true ∧ p.2.gridOk = true) →
      (download_audit_reports true inputs).manifestFile
        = some (manifestCSV (download_audit_reports true inputs).log)) ∧
    ((¬ ∀ p ∈ inputs, p.2.navOk = true ∧ p.2.gridOk = true) →
      (download_audit_reports true inputs).manifestFile = none) := by
  constructor
  · intro h
    have hf : (runAux inputs).fatal = none := (runAux_fatal_none_iff inputs).mpr h
    simp [download_audit_reports, hf]
  · intro h
    have hf : ¬ (runAux inputs).fatal = none :=
      fun hn => h ((runAux_fatal_none_iff inputs).mp hn)
    obtain ⟨e, he⟩ := Option.ne_none_iff_exists'.mp hf
    simp [download_audit_reports, he]

/-- C5 witness: a run whose single record succeeds writes the manifest; a
run whose single record hits a navigation timeout writes nothing. -/
theorem C5_witness :
    (download_audit_reports true [(recA, pageA)]).manifestFile
      = some (manifestCSV (download_audit_reports true [(recA, pageA)]).log) ∧
    (download_audit_reports true [(recA, pageBadNav)]).manifestFile = none :=
  ⟨(C5_manifest_write_requires_loop_completion [(recA, pageA)]).1 (by decide),
   (C5_manifest_write_requires_loop_completion [(recA, pageBadNav)]).2 (by decide)⟩

/-- C6: every saved file is named by `auditFilename` from its
`(id, date, index)` key with the 1-based display-order index, and when the
input records' (stripped id, formatted date) pairs are pairwise distinct —
what the deduplicated filter stage feeds in — the key triples of all
produced entries are pairwise distinct within the run. -/
theorem C6_deterministic_unique_names (sessionOk : Bool)
    (inputs : List (TargetRecord × RecordPage))
    (hdedup : (inputs.map (fun p => (strip p.1.id, p.1.licenseStart.fmt))).Pairwise
        (fun a b => a ≠ b)) :
    (download_audit_reports sessionOk inputs).saved
      = (download_audit_reports sessionOk inputs).keys.map
          (fun k => auditFilename k.1 k.2.1 k.2.2) ∧
    (∀ k ∈ (download_audit_reports sessionOk inputs).keys, 1 ≤ k.2.2) ∧
    (download_audit_reports sessionOk inputs).keys.Pairwise (fun a b => a ≠ b) := by
  cases sessionOk with
  | false => exact ⟨rfl, by intro k hk; simp [download_audit_reports] at hk,
      List.Pairwise.nil⟩
  | true =>
    refine ⟨runAux_saved_keys inputs, ?_, runAux_keys_nodup inputs hdedup⟩
    intro k hk
    obtain ⟨p, hp, -, -, h3⟩ := runAux_mem_keys inputs k hk
    exact h3

/-- C6 witness: two records, three saved attachments, names determined by
the keys and all three key triples distinct. -/
theorem C6_witness :
    (download_audit_reports true [(recA, pageA), (recB, pageB)]).saved
      = (download_audit_reports true [(recA, pageA), (recB, pageB)]).keys.map
          (fun k => auditFilename k.1 k.2.1 k.2.2) ∧
    (download_audit_reports true [(recA, pageA), (recB, pageB)]).keys.Pairwise
      (fun a b => a ≠ b) :=
  ⟨(C6_deterministic_unique_names true [(recA, pageA), (recB, pageB)] (by decide)).1,
   (C6_deterministic_unique_names true [(recA, pageA), (recB, pageB)] (by decide)).2.2⟩

/-- C7: a failing candidate in the middle of the attachment list is
isolated: the loop's output over `xs ++ o :: ys` with `o` failing equals
the output over `xs` followed by the output over `ys` with the counter
advanced past `o` — entries already produced are retained and later
candidates are still attempted. -/
theorem C7_attachment_failure_isolated (pid d : String) (j : Nat)
    (xs ys : List AttachmentOutcome) (o : AttachmentOutcome)
    (h : ∀ s, o ≠ AttachmentOutcome.saved s) :
    downloadLoop pid d j (xs ++ o :: ys)
      = ⟨(downloadLoop pid d j xs).saved
           ++ (downloadLoop pid d (j + xs.length + 1) ys).saved,
         (downloadLoop pid d j xs).keys
           ++ (downloadLoop pid d (j + xs.length + 1) ys).keys,
         (downloadLoop pid d j xs).entries
           ++ (downloadLoop pid d (j + xs.length + 1) ys).entries⟩ := by
  rw [downloadLoop_append pid d xs (o :: ys) j,
      downloadLoop_skip pid d (j + xs.length) o ys h]

/-- C7 witness: with the middle of three candidates timing out, the first
and third are both saved. -/
theorem C7_witness :
    downloadLoop "PRSM-200" "2025-04-05" 0
        [AttachmentOutcome.saved "b1.pdf", AttachmentOutcome.downloadTimeout,
         AttachmentOutcome.saved "b2.pdf"]
      = ⟨(downloadLoop "PRSM-200" "2025-04-05" 0 [AttachmentOutcome.saved "b1.pdf"]).saved
           ++ (downloadLoop "PRSM-200" "2025-04-05" 2 [AttachmentOutcome.saved "b2.pdf"]).saved,
         (downloadLoop "PRSM-200" "2025-04-05" 0 [AttachmentOutcome.saved "b1.pdf"]).keys
           ++ (downloadLoop "PRSM-200" "2025-04-05" 2 [AttachmentOutcome.saved "b2.pdf"]).keys,
         (downloadLoop "PRSM-200" "2025-04-05" 0 [AttachmentOutcome.saved "b1.pdf"]).entries
           ++ (downloadLoop "PRSM-200" "2025-04-05" 2 [AttachmentOutcome.saved "b2.pdf"]).entries⟩ :=
  C7_attachment_failure_isolated "PRSM-200" "2025-04-05" 0
    [AttachmentOutcome.saved "b1.pdf"] [AttachmentOutcome.saved "b2.pdf"]
    AttachmentOutcome.downloadTimeout (fun _ h => AttachmentOutcome.noConfusion h)

/-- C8: a located and verified record with zero `Audit Report` controls is
the empty outcome, not an error: the record contributes no entries, no
files and no fatal error, and the remaining records are processed exactly
as they would be without it. -/
theorem C8_no_attachments_not_error (r : TargetRecord) (pg : RecordPage)
    (rest : List (TargetRecord × RecordPage)) (cells : List String)
    (hnav : pg.navOk = true) (hgrid : pg.gridOk = true)
    (hsw : pg.searchWaitOk = true) (hsb : pg.searchBoxFound = true)
    (hrow : pg.rows.head? = some cells)
    (hok : verifyFirstRow (strip r.id) cells = VerifyOutcome.ok)
    (hatt : pg.attachments = []) :
    runAux ((r, pg) :: rest)
      = ⟨(runAux rest).log, (runAux rest).saved, (runAux rest).keys,
         RecOutcome.noAttachments :: (runAux rest).outcomes,
         (runAux rest).fatal⟩ := by
  have ht : processRecordTry r pg = ⟨.noAttachments, true, [], [], []⟩ := by
    obtain ⟨nav, grid, sw, sb, rows, atts⟩ := pg
    replace hsw : sw = true := hsw
    replace hsb : sb = true := hsb
    replace hatt : atts = [] := hatt
    subst hsw; subst hsb; subst hatt
    cases rows with
    | nil => exact absurd hrow (by simp)
    | cons c0 rs =>
      have hc0 : c0 = cells := by simpa using hrow
      subst hc0
      simp [processRecordTry, hok]
  simp [runAux, hnav, hgrid, ht]

/-- C8 witness: `recA` is located with zero attachments, then `recB` is
still processed with its two saves. -/
theorem C8_witness :
    runAux [(recA, pageNoAtt), (recB, pageB)]
      = ⟨(runAux [(recB, pageB)]).log, (runAux [(recB, pageB)]).saved,
         (runAux [(recB, pageB)]).keys,
         RecOutcome.noAttachments :: (runAux [(recB, pageB)]).outcomes,
         (runAux [(recB, pageB)]).fatal⟩ :=
  C8_no_attachments_not_error recA pageNoAtt [(recB, pageB)] (rowFor "PRSM-100")
    rfl rfl rfl rfl rfl (by decide) rfl

/-- C9: the verification step reads exactly the sixth cell (index 5) of the
first result row — two first rows of at least six cells agreeing at index 5
verify identically — and a first row with fewer than six cells is an
unexpected row format: the record is skipped with the row never opened and
zero entries. -/
theorem C9_sixth_cell_read (r : TargetRecord) (pg : RecordPage)
    (cells : List String) (hrow : pg.rows.head? = some cells) :
    (cells.length < 6 →
      verifyFirstRow (strip r.id) cells = VerifyOutcome.badFormat ∧
      (processRecordTry r pg).rowOpened = false ∧
      (processRecordTry r pg).saved = [] ∧
      (processRecordTry r pg).entries = []) ∧
    (∀ cells2 : List String, 6 ≤ cells.length → 6 ≤ cells2.length →
      cells.get? 5 = cells2.get? 5 →
      verifyFirstRow (strip r.id) cells = verifyFirstRow (strip r.id) cells2) := by
  constructor
  · intro hlen
    have hbad : verifyFirstRow (strip r.id) cells = VerifyOutcome.badFormat := by
      unfold verifyFirstRow; rw [if_pos hlen]
    refine ⟨hbad, ?_⟩
    apply processRecordTry_not_ok r pg cells hrow
    intro hk
    rw [hbad] at hk
    exact VerifyOutcome.noConfusion hk
  · intro cells2 h6 h62 hsame
    unfold verifyFirstRow
    rw [if_neg (by omega), if_neg (by omega), hsame]

/-- C9 witness: a two-cell first row is skipped as an unexpected format,
and two six-plus-cell rows agreeing at index 5 verify identically. -/
theorem C9_witness :
    verifyFirstRow (strip recA.id) ["a", "b"] = VerifyOutcome.badFormat ∧
    (processRecordTry recA pageShortRow).rowOpened = false ∧
    (processRecordTry recA pageShortRow).saved = [] ∧
    (processRecordTry recA pageShortRow).entries = [] ∧
    verifyFirstRow (strip recA.id) (rowFor "PRSM-100")
      = verifyFirstRow (strip recA.id) ["x", "y", "z", "u", "v", "PRSM-100"] := by
  obtain ⟨h1, h2, h3, h4⟩ :=
    (C9_sixth_cell_read recA pageShortRow ["a", "b"] rfl).1 (by decide)
  exact ⟨h1, h2, h3, h4,
    (C9_sixth_cell_read recA pageA (rowFor "PRSM-100") rfl).2
      ["x", "y", "z", "u", "v", "PRSM-100"] (by decide) (by decide) (by decide)⟩

/-- Replace the browser-suggested filename carried by a successful
download. -/
def mapSuggested (f : String → String) : AttachmentOutcome → AttachmentOutcome
  | .saved s => .saved (f s)
  | o => o

/-- C10: every accumulated entry's filename ends in the literal `.pdf`, and
the attachment loop's output is invariant under any change of the
browser-suggested filenames — the saved name never depends on the
downloaded file's own name or type. -/
theorem C10_pdf_extension (sessionOk : Bool)
    (inputs : List (TargetRecord × RecordPage)) :
    (∀ e ∈ (download_audit_reports sessionOk inputs).log,
      ∃ p, e.filename = p ++ ".pdf") ∧
    (∀ (pid d : String) (j : Nat) (outs : List AttachmentOutcome)
        (f : String → String),
      downloadLoop pid d j (outs.map (mapSuggested f))
        = downloadLoop pid d j outs) := by
  constructor
  · intro e he
    cases sessionOk with
    | false => simp [download_audit_reports] at he
    | true =>
      obtain ⟨pid, d, i, hi⟩ := runAux_mem_entries inputs e he
      exact ⟨pid ++ "_" ++ d ++ "_audit_" ++ toString i, by rw [hi]; rfl⟩
  · intro pid d j outs f
    induction outs generalizing j with
    | nil => rfl
    | cons o rest ih =>
      cases o with
      | saved s => simp [mapSuggested, downloadLoop, ih]
      | downloadTimeout => simp [mapSuggested, downloadLoop, ih]
      | saveFailed => simp [mapSuggested, downloadLoop, ih]

/-- C10 witness: the concrete saved entry's filename ends in `.pdf`, and
renaming the suggested filename to `report.docx` changes nothing. -/
theorem C10_witness :
    (∃ p, (ManifestEntry.filename
        ⟨"PRSM-100", "2025-04-02", "Audit Report",
         "PRSM-100_2025-04-02_audit_1.pdf"⟩) = p ++ ".pdf") ∧
    downloadLoop "PRSM-100" "2025-04-02" 0
        [mapSuggested (fun _ => "report.docx") (AttachmentOutcome.saved "x")]
      = downloadLoop "PRSM-100" "2025-04-02" 0 [AttachmentOutcome.saved "x"] :=
  ⟨(C10_pdf_extension true [(recA, pageA)]).1 _ (by decide),
   (C10_pdf_extension true []).2 "PRSM-100" "2025-04-02" 0
     [AttachmentOutcome.saved "x"] (fun _ => "report.docx")⟩
